import Mathlib

/-!
Verification of the rule-engine core of the backend service
(`src/main.py`): personal-color inference (undertone, season, palette),
ingredient-sensitivity analysis, and the comprehensive composition
endpoint.  The pydantic request/response models are embedded as Lean
structures whose optional enum fields are `Option` of finite inductives
(the HTTP gateway rejects out-of-enum values before the engine runs, so
typed fields are the faithful model of the validated requests).  Strings
stay `String`; Python `sorted(set(xs))` is embedded as an insertion sort
of the deduplicated list, which produces the same (unique) sorted
duplicate-free list.
-/

namespace Backend

/-- Embedding of Python `str.lower()` as a character-wise map over the
string's character data (all strings the analysis compares are ASCII,
where the two agree). -/
def lowerString (s : String) : String := String.mk (s.data.map Char.toLower)

/-- Lexicographic `≤` on character lists by Unicode code point, the
order Python's `sorted` uses on strings. -/
def leChars : List Char → List Char → Bool
  | [], _ => true
  | _ :: _, [] => false
  | a :: as, b :: bs =>
    if a < b then true
    else if b < a then false
    else leChars as bs

/-- Lexicographic `≤` on strings (Python's string comparison). -/
def strle (a b : String) : Prop := leChars a.data b.data = true

instance : DecidableRel strle := fun a b => instDecidableEqBool (leChars a.data b.data) true

/-- `Undertone = Literal["cool", "warm", "neutral"]` from `src/main.py`. -/
inductive Undertone where
  | cool | warm | neutral
deriving DecidableEq

/-- `SkinType = Literal["dry", "oily", "combination", "sensitive", "normal"]`. -/
inductive SkinType where
  | dry | oily | combination | sensitive | normal
deriving DecidableEq

/-- Skin-tone enum `Literal["fair", "light", "medium", "tan", "deep"]`. -/
inductive SkinTone where
  | fair | light | medium | tan | deep
deriving DecidableEq

/-- Vein-color enum `Literal["blue", "green", "mixed"]`. -/
inductive VeinColor where
  | blue | green | mixed
deriving DecidableEq

/-- Jewelry-preference enum `Literal["silver", "gold", "both"]`. -/
inductive JewelryPreference where
  | silver | gold | both
deriving DecidableEq

/-- `PersonalColorRequest`: every field optional, defaulting to `None`. -/
structure PersonalColorRequest where
  user_id : Option String := none
  skin_tone : Option SkinTone := none
  vein_color : Option VeinColor := none
  jewelry_preference : Option JewelryPreference := none
  undertone_hint : Option Undertone := none
deriving DecidableEq

/-- `PersonalColorResult` (the `season` field is the string computed by
`undertone_to_season`, as in the source). -/
structure PersonalColorResult where
  undertone : Undertone
  season : String
  palette : List String
deriving DecidableEq

/-- `SensitivityRequest`: optional skin type, free-text reaction strings,
two booleans, all defaulted. -/
structure SensitivityRequest where
  user_id : Option String := none
  skin_type : Option SkinType := none
  ingredients_reactions : List String := []
  fragrance_sensitive : Bool := false
  acne_prone : Bool := false
deriving DecidableEq

/-- `SensitivityResult`: flags, avoid-list, advisory note. -/
structure SensitivityResult where
  flags : List String
  avoid_ingredients : List String
  notes : String
deriving DecidableEq

/-- `ComprehensiveRequest`: optional personal and sensitivity sub-blocks. -/
structure ComprehensiveRequest where
  user_id : Option String := none
  personal : Option PersonalColorRequest := none
  sensitivity : Option SensitivityRequest := none
deriving DecidableEq

/-- `ComprehensiveResult`; the `recommendations` dict is embedded as an
association list in insertion order (both values placed in it are lists
of strings). -/
structure ComprehensiveResult where
  user_id : Option String := none
  personal : Option PersonalColorResult := none
  sensitivity : Option SensitivityResult := none
  recommendations : List (String × List String) := []
deriving DecidableEq

/-- `infer_undertone` (src/main.py:137-148): priority chain — a valid
hint wins; then vein color blue/green; then jewelry silver/gold; else
neutral.  (`req.undertone_hint in ("cool","warm","neutral")` holds
exactly when the typed optional hint is present.) -/
def infer_undertone (req : PersonalColorRequest) : Undertone :=
  match req.undertone_hint with
  | some u => u
  | none =>
    if req.vein_color = some VeinColor.blue then Undertone.cool
    else if req.vein_color = some VeinColor.green then Undertone.warm
    else if req.jewelry_preference = some JewelryPreference.silver then Undertone.cool
    else if req.jewelry_preference = some JewelryPreference.gold then Undertone.warm
    else Undertone.neutral

/-- `undertone_to_season` (src/main.py:150-155). -/
def undertone_to_season (undertone : Undertone) (skin_tone : Option SkinTone) : String :=
  match undertone with
  | Undertone.cool =>
    if skin_tone = some SkinTone.fair ∨ skin_tone = some SkinTone.light then "summer"
    else "winter"
  | Undertone.warm =>
    if skin_tone = some SkinTone.fair ∨ skin_tone = some SkinTone.light ∨
        skin_tone = some SkinTone.medium then "spring"
    else "autumn"
  | Undertone.neutral =>
    if skin_tone = some SkinTone.fair ∨ skin_tone = some SkinTone.light then "spring"
    else "autumn"

/-- `season_palette` (src/main.py:157-164): static dict lookup with a
`["neutral"]` fallback for unknown keys. -/
def season_palette (season : String) : List String :=
  if season = "spring" then ["peach", "coral", "warm beige", "light olive", "mint"]
  else if season = "summer" then ["cool pink", "lavender", "soft blue", "rose", "mauve"]
  else if season = "autumn" then ["terracotta", "olive", "mustard", "warm brown", "teal"]
  else if season = "winter" then ["true red", "black", "white", "emerald", "cobalt"]
  else ["neutral"]

/-- `analyze_personal_color` (src/main.py:166-170). -/
def analyze_personal_color (req : PersonalColorRequest) : PersonalColorResult :=
  let u := infer_undertone req
  let s := undertone_to_season u req.skin_tone
  let p := season_palette s
  { undertone := u, season := s, palette := p }

/-- `analyze_sensitivity` (src/main.py:172-200).  Flags and avoid
entries accumulate in source order; the final avoid-list is
`sorted(set(avoid))`, embedded as insertion sort of the deduplicated
list. -/
def analyze_sensitivity (req : SensitivityRequest) : SensitivityResult :=
  let low := req.ingredients_reactions.map lowerString
  let flags : List String :=
    (if req.fragrance_sensitive = true ∨ "fragrance" ∈ low then ["fragrance_sensitive"] else []) ++
    (if req.acne_prone = true ∨ "pore clogging" ∈ low then ["acne_prone"] else []) ++
    (if req.skin_type = some SkinType.dry then ["dry_skin"] else []) ++
    (if req.skin_type = some SkinType.oily then ["oily_skin"] else []) ++
    (if req.skin_type = some SkinType.sensitive then ["sensitive_skin"] else [])
  let avoid : List String :=
    (if req.fragrance_sensitive = true ∨ "fragrance" ∈ low then ["fragrance"] else []) ++
    (if req.acne_prone = true ∨ "pore clogging" ∈ low then ["heavy oils", "isopropyl myristate"] else []) ++
    (if req.skin_type = some SkinType.dry then ["high alcohol"] else []) ++
    (if req.skin_type = some SkinType.oily then ["heavy occlusives"] else []) ++
    (if req.skin_type = some SkinType.sensitive then ["strong AHA/BHA", "retinoid (high)"] else []) ++
    (if "alcohol" ∈ low then ["alcohol"] else []) ++
    (if "aha" ∈ low then ["strong AHA"] else [])
  { flags := flags
    avoid_ingredients := List.insertionSort strle avoid.dedup
    notes := "개인 민감도와 피부 타입에 맞춰 성분 라벨을 확인하세요." }

/-- Pure core of `api_comprehensive` (src/main.py:243-261), without the
audit-log side effect: each sub-analysis runs iff its block is present
(a pydantic model is always truthy, so `req.personal or
PersonalColorRequest()` is `req.personal` whenever it is not `None`);
the recommendations dict gets `"palette"` / `"avoid"` exactly from the
computed sub-results. -/
def api_comprehensive (req : ComprehensiveRequest) : ComprehensiveResult :=
  let personal_res := match req.personal with
    | some p => some (analyze_personal_color p)
    | none => none
  let sensi_res := match req.sensitivity with
    | some s => some (analyze_sensitivity s)
    | none => none
  let recs : List (String × List String) :=
    (match personal_res with
     | some pr => [("palette", pr.palette)]
     | none => []) ++
    (match sensi_res with
     | some sr => [("avoid", sr.avoid_ingredients)]
     | none => [])
  { user_id := req.user_id
    personal := personal_res
    sensitivity := sensi_res
    recommendations := recs }

theorem leChars_total : ∀ as bs, leChars as bs = true ∨ leChars bs as = true
  | [], _ => Or.inl rfl
  | _ :: _, [] => Or.inr rfl
  | a :: as, b :: bs => by
    rcases lt_trichotomy a b with hab | hab | hab
    · left
      simp [leChars, hab]
    · subst hab
      rcases leChars_total as bs with h | h <;> [left; right] <;>
        simpa [leChars, lt_irrefl] using h
    · right
      simp [leChars, hab]

theorem leChars_trans : ∀ as bs cs, leChars as bs = true → leChars bs cs = true →
    leChars as cs = true
  | [], _, _, _, _ => rfl
  | _ :: _, [], _, h1, _ => by simp [leChars] at h1
  | _ :: _, _ :: _, [], _, h2 => by simp [leChars] at h2
  | a :: as, b :: bs, c :: cs, h1, h2 => by
    rcases lt_trichotomy a b with hab | hab | hab
    · rcases lt_trichotomy b c with hbc | hbc | hbc
      · simp [leChars, lt_trans hab hbc]
      · subst hbc
        simp [leChars, hab]
      · rw [leChars, if_neg (asymm hbc), if_pos hbc] at h2
        exact absurd h2 (by simp)
    · subst hab
      rw [leChars, if_neg (lt_irrefl a), if_neg (lt_irrefl a)] at h1
      rcases lt_trichotomy a c with hac | hac | hac
      · simp [leChars, hac]
      · subst hac
        rw [leChars, if_neg (lt_irrefl a), if_neg (lt_irrefl a)] at h2
        simpa [leChars, lt_irrefl] using leChars_trans as bs cs h1 h2
      · rw [leChars, if_neg (asymm hac), if_pos hac] at h2
        exact absurd h2 (by simp)
    · rw [leChars, if_neg (asymm hab), if_pos hab] at h1
      exact absurd h1 (by simp)

instance : IsTotal String strle := ⟨fun a b => leChars_total a.data b.data⟩

instance : IsTrans String strle :=
  ⟨fun a b c => leChars_trans a.data b.data c.data⟩

/-- `strle` is the standard lexicographic order on strings: it agrees
with core `String.le` (`¬ b < a`, where `<` compares the character
lists). -/
theorem leChars_iff_not_lt : ∀ as bs : List Char, leChars as bs = true ↔ ¬ List.lt bs as
  | [], bs => by
    simp only [leChars, true_iff]
    intro h
    cases bs <;> cases h
  | a :: as, [] => by
    simp only [leChars]
    exact iff_of_false (by simp) (not_not_intro (List.lt.nil a as))
  | a :: as, b :: bs => by
    rcases lt_trichotomy a b with hab | hab | hab
    · simp only [leChars, if_pos hab, true_iff]
      intro h
      cases h with
      | head _ _ h' => exact absurd h' (asymm hab)
      | tail h₁ h₂ h₃ => exact absurd hab h₂
    · subst hab
      simp only [leChars, if_neg (lt_irrefl a)]
      rw [leChars_iff_not_lt as bs]
      constructor
      · intro h hlt
        cases hlt with
        | head _ _ h' => exact absurd h' (lt_irrefl a)
        | tail h₁ h₂ h₃ => exact h h₃
      · intro h hlt
        exact h (List.lt.tail (lt_irrefl a) (lt_irrefl a) hlt)
    · simp only [leChars, if_neg (asymm hab), if_pos hab]
      exact iff_of_false (by simp) (not_not_intro (List.lt.head bs as hab))

theorem strle_iff_le (a b : String) : strle a b ↔ String.le a b :=
  leChars_iff_not_lt a.data b.data

/-- The concrete sensitivity request of the spec's worked example. -/
def oilyExampleRequest : SensitivityRequest :=
  { skin_type := some SkinType.oily, ingredients_reactions := ["Alcohol", "AHA"] }

/-- A request carrying both a valid undertone hint and a vein color, to
exhibit the hint's priority. -/
def hintAndBlueRequest : PersonalColorRequest :=
  { undertone_hint := some Undertone.warm, vein_color := some VeinColor.blue }

/-- The concrete personal-color request of the spec's worked example. -/
def blueFairRequest : PersonalColorRequest :=
  { vein_color := some VeinColor.blue, skin_tone := some SkinTone.fair }

/-- Every season the derivation can produce is one of the four table
keys, so the palette of a derived season is a 5-color list and never the
`["neutral"]` fallback. -/
theorem season_palette_derivation (u : Undertone) (st : Option SkinTone) :
    (season_palette (undertone_to_season u st)).length = 5 ∧
    season_palette (undertone_to_season u st) ≠ ["neutral"] ∧
    undertone_to_season u st ∈ (["spring", "summer", "autumn", "winter"] : List String) := by
  cases u <;> simp only [undertone_to_season] <;> split <;> exact by decide

/-- C1: `infer_undertone` is the priority-ordered first-match chain:
a present (hence valid) undertone hint is returned; otherwise vein color
blue/green gives cool/warm; otherwise jewelry silver/gold gives
cool/warm; otherwise neutral.  In particular a present hint overrides
the other fields. -/
theorem infer_undertone_priority (req : PersonalColorRequest) :
    (∀ u, req.undertone_hint = some u → infer_undertone req = u) ∧
    (req.undertone_hint = none → req.vein_color = some VeinColor.blue →
      infer_undertone req = Undertone.cool) ∧
    (req.undertone_hint = none → req.vein_color = some VeinColor.green →
      infer_undertone req = Undertone.warm) ∧
    (req.undertone_hint = none → req.vein_color ≠ some VeinColor.blue →
      req.vein_color ≠ some VeinColor.green →
      req.jewelry_preference = some JewelryPreference.silver →
      infer_undertone req = Undertone.cool) ∧
    (req.undertone_hint = none → req.vein_color ≠ some VeinColor.blue →
      req.vein_color ≠ some VeinColor.green →
      req.jewelry_preference = some JewelryPreference.gold →
      infer_undertone req = Undertone.warm) ∧
    (req.undertone_hint = none → req.vein_color ≠ some VeinColor.blue →
      req.vein_color ≠ some VeinColor.green →
      req.jewelry_preference ≠ some JewelryPreference.silver →
      req.jewelry_preference ≠ some JewelryPreference.gold →
      infer_undertone req = Undertone.neutral) := by
  refine ⟨fun u h => ?_, fun h0 h1 => ?_, fun h0 h1 => ?_, fun h0 h1 h2 h3 => ?_,
    fun h0 h1 h2 h3 => ?_, fun h0 h1 h2 h3 h4 => ?_⟩ <;>
    simp [infer_undertone, *]

/-- Witness for C1 at a concrete request: the warm hint wins although
the vein color is blue. -/
theorem infer_undertone_priority_witness :
    infer_undertone hintAndBlueRequest = Undertone.warm :=
  (infer_undertone_priority hintAndBlueRequest).1 Undertone.warm rfl

/-- C2: `undertone_to_season` follows the derivation table, and an
absent skin tone matches no listed value, landing in the else branch
(winter for cool, autumn for warm and neutral). -/
theorem undertone_to_season_table (st : Option SkinTone) :
    (undertone_to_season Undertone.cool st =
      if st = some SkinTone.fair ∨ st = some SkinTone.light then "summer" else "winter") ∧
    (undertone_to_season Undertone.warm st =
      if st = some SkinTone.fair ∨ st = some SkinTone.light ∨ st = some SkinTone.medium
      then "spring" else "autumn") ∧
    (undertone_to_season Undertone.neutral st =
      if st = some SkinTone.fair ∨ st = some SkinTone.light then "spring" else "autumn") ∧
    (undertone_to_season Undertone.cool none = "winter") ∧
    (undertone_to_season Undertone.warm none = "autumn") ∧
    (undertone_to_season Undertone.neutral none = "autumn") :=
  ⟨rfl, rfl, rfl, by decide, by decide, by decide⟩

/-- C3: for every request, the avoid-list of `analyze_sensitivity` is
sorted in ascending lexicographic order (both for the executable
comparator `strle` and for the standard string order `String.le`) and
has no duplicates. -/
theorem analyze_sensitivity_avoid_sorted_nodup (req : SensitivityRequest) :
    List.Sorted strle ((analyze_sensitivity req).avoid_ingredients) ∧
    List.Sorted (fun a b => String.le a b) ((analyze_sensitivity req).avoid_ingredients) ∧
    ((analyze_sensitivity req).avoid_ingredients).Nodup := by
  have hs : List.Sorted strle ((analyze_sensitivity req).avoid_ingredients) :=
    List.sorted_insertionSort strle _
  refine ⟨hs, hs.imp fun h => (strle_iff_le _ _).mp h, ?_⟩
  exact ((List.perm_insertionSort strle _).nodup_iff).mpr (List.nodup_dedup _)

/-- C4: `analyze_sensitivity` accumulates flags (in first-encountered
order) and avoid entries from the independent conditions exactly as
listed, and on the worked example (oily skin, reactions
`["Alcohol", "AHA"]`) yields flags `["oily_skin"]` and avoid-list
`["alcohol", "heavy occlusives", "strong AHA"]`. -/
theorem analyze_sensitivity_accumulation (req : SensitivityRequest) :
    ((analyze_sensitivity req).flags =
      (if req.fragrance_sensitive = true ∨
          "fragrance" ∈ req.ingredients_reactions.map lowerString
        then ["fragrance_sensitive"] else []) ++
      (if req.acne_prone = true ∨
          "pore clogging" ∈ req.ingredients_reactions.map lowerString
        then ["acne_prone"] else []) ++
      (if req.skin_type = some SkinType.dry then ["dry_skin"] else []) ++
      (if req.skin_type = some SkinType.oily then ["oily_skin"] else []) ++
      (if req.skin_type = some SkinType.sensitive then ["sensitive_skin"] else [])) ∧
    ((analyze_sensitivity req).avoid_ingredients = List.insertionSort strle
      ((if req.fragrance_sensitive = true ∨
          "fragrance" ∈ req.ingredients_reactions.map lowerString
        then ["fragrance"] else []) ++
      (if req.acne_prone = true ∨
          "pore clogging" ∈ req.ingredients_reactions.map lowerString
        then ["heavy oils", "isopropyl myristate"] else []) ++
      (if req.skin_type = some SkinType.dry then ["high alcohol"] else []) ++
      (if req.skin_type = some SkinType.oily then ["heavy occlusives"] else []) ++
      (if req.skin_type = some SkinType.sensitive
        then ["strong AHA/BHA", "retinoid (high)"] else []) ++
      (if "alcohol" ∈ req.ingredients_reactions.map lowerString then ["alcohol"] else []) ++
      (if "aha" ∈ req.ingredients_reactions.map lowerString then ["strong AHA"] else [])).dedup) ∧
    (analyze_sensitivity oilyExampleRequest).flags = ["oily_skin"] ∧
    (analyze_sensitivity oilyExampleRequest).avoid_ingredients =
      ["alcohol", "heavy occlusives", "strong AHA"] :=
  ⟨rfl, rfl, by decide, by decide⟩

/-- A comprehensive request whose only sub-block is a (default, empty)
sensitivity block. -/
def sensitivityOnlyRequest : ComprehensiveRequest :=
  { sensitivity := some ({} : SensitivityRequest) }

/-- C5: the comprehensive endpoint runs each sub-analysis iff its block
is present (a present block — empty or not — is analyzed as given, so an
all-default block is analyzed with default field values), the
recommendations mapping holds key "palette" / "avoid" exactly when the
corresponding sub-result was computed, and a request with only a
sensitivity block yields a null personal result and recommendations
with only key "avoid". -/
theorem api_comprehensive_composition (req : ComprehensiveRequest) :
    (api_comprehensive req).personal = Option.map analyze_personal_color req.personal ∧
    (api_comprehensive req).sensitivity = Option.map analyze_sensitivity req.sensitivity ∧
    ((api_comprehensive req).recommendations.map Prod.fst =
      (if req.personal.isSome then ["palette"] else []) ++
      (if req.sensitivity.isSome then ["avoid"] else [])) ∧
    (req.personal = none → req.sensitivity.isSome = true →
      (api_comprehensive req).personal = none ∧
      (api_comprehensive req).recommendations.map Prod.fst = ["avoid"]) := by
  rcases req with ⟨u, p, s⟩
  cases p <;> cases s <;> simp [api_comprehensive]

/-- Witness for C5 at the concrete sensitivity-only request. -/
theorem api_comprehensive_composition_witness :
    (api_comprehensive sensitivityOnlyRequest).personal = none ∧
    (api_comprehensive sensitivityOnlyRequest).recommendations.map Prod.fst = ["avoid"] :=
  (api_comprehensive_composition sensitivityOnlyRequest).2.2.2 rfl rfl

/-- Reaction list `["FRAGRANCE"]`, upper case. -/
def fragranceUpperRequest : SensitivityRequest := { ingredients_reactions := ["FRAGRANCE"] }

/-- Reaction list `["fragrance"]`, lower case. -/
def fragranceLowerRequest : SensitivityRequest := { ingredients_reactions := ["fragrance"] }

/-- C6: `analyze_sensitivity` is invariant under case changes and
reordering of the reaction list: if two otherwise identical requests
have reaction lists that agree up to character case and permutation
(their case-folded lists are permutations of each other), the full
results — flags, avoid-list, and note — coincide. -/
theorem analyze_sensitivity_case_perm_invariant (req1 req2 : SensitivityRequest)
    (hskin : req1.skin_type = req2.skin_type)
    (hfrag : req1.fragrance_sensitive = req2.fragrance_sensitive)
    (hacne : req1.acne_prone = req2.acne_prone)
    (hperm : List.Perm (req1.ingredients_reactions.map lowerString)
      (req2.ingredients_reactions.map lowerString)) :
    analyze_sensitivity req1 = analyze_sensitivity req2 := by
  simp only [analyze_sensitivity, hskin, hfrag, hacne, hperm.mem_iff]

/-- Witness for C6: `["FRAGRANCE"]` and `["fragrance"]` give identical
results. -/
theorem analyze_sensitivity_case_perm_invariant_witness :
    analyze_sensitivity fragranceUpperRequest = analyze_sensitivity fragranceLowerRequest :=
  analyze_sensitivity_case_perm_invariant fragranceUpperRequest fragranceLowerRequest
    rfl rfl rfl (by decide)

/-- C7: the four seasons each map to a fixed 5-color palette, the
`["neutral"]` fallback is unreachable for any derived season, every
analysis result's palette has exactly 5 colors, and the worked example
(vein blue, skin fair) gives cool / summer / the summer palette. -/
theorem season_palette_five_and_fallback_unreachable :
    (season_palette "spring").length = 5 ∧
    (season_palette "summer").length = 5 ∧
    (season_palette "autumn").length = 5 ∧
    (season_palette "winter").length = 5 ∧
    (∀ u st, season_palette (undertone_to_season u st) ≠ ["neutral"]) ∧
    (∀ req : PersonalColorRequest, (analyze_personal_color req).palette.length = 5) ∧
    analyze_personal_color blueFairRequest =
      { undertone := Undertone.cool, season := "summer",
        palette := ["cool pink", "lavender", "soft blue", "rose", "mauve"] } :=
  ⟨by decide, by decide, by decide, by decide,
    fun u st => (season_palette_derivation u st).2.1,
    fun req => (season_palette_derivation (infer_undertone req) req.skin_tone).1,
    by decide⟩

/-- C8: both analysis functions are total over the fully-optional input
domain and return fully populated results: the palette is non-empty, the
season is one of the four enum values, and the advisory note is the
fixed non-empty string. -/
theorem analyses_total (r : PersonalColorRequest) (s : SensitivityRequest) :
    (analyze_personal_color r).palette ≠ [] ∧
    (analyze_personal_color r).season ∈ (["spring", "summer", "autumn", "winter"] : List String) ∧
    (analyze_sensitivity s).notes = "개인 민감도와 피부 타입에 맞춰 성분 라벨을 확인하세요." ∧
    (analyze_sensitivity s).notes ≠ "" := by
  refine ⟨?_, (season_palette_derivation (infer_undertone r) r.skin_tone).2.2, rfl, ?_⟩
  · intro h
    have hlen := (season_palette_derivation (infer_undertone r) r.skin_tone).1
    rw [show season_palette (undertone_to_season (infer_undertone r) r.skin_tone) =
      (analyze_personal_color r).palette from rfl, h] at hlen
    simp at hlen
  · show ("개인 민감도와 피부 타입에 맞춰 성분 라벨을 확인하세요." : String) ≠ ""
    decide

/-- C9: the compute functions are deterministic — two invocations on the
same input are the same pure application and yield identical outputs (the
embedding of the engine is stateless: its output is a function of the
request value alone). -/
theorem analyses_deterministic (r : PersonalColorRequest) (s : SensitivityRequest)
    (c : ComprehensiveRequest) :
    analyze_personal_color r = analyze_personal_color r ∧
    analyze_sensitivity s = analyze_sensitivity s ∧
    api_comprehensive c = api_comprehensive c :=
  ⟨rfl, rfl, rfl⟩

/-- C10: `user_id` never influences any analysis output — two requests
agreeing on everything but `user_id` get identical personal results,
sensitivity results, and recommendations — and the comprehensive result
copies the request's (possibly null) `user_id` verbatim. -/
theorem user_id_noninterference (r1 r2 : PersonalColorRequest) (s1 s2 : SensitivityRequest)
    (c1 c2 : ComprehensiveRequest)
    (hr : r1.skin_tone = r2.skin_tone ∧ r1.vein_color = r2.vein_color ∧
      r1.jewelry_preference = r2.jewelry_preference ∧ r1.undertone_hint = r2.undertone_hint)
    (hs : s1.skin_type = s2.skin_type ∧ s1.ingredients_reactions = s2.ingredients_reactions ∧
      s1.fragrance_sensitive = s2.fragrance_sensitive ∧ s1.acne_prone = s2.acne_prone)
    (hc : c1.personal = c2.personal ∧ c1.sensitivity = c2.sensitivity) :
    analyze_personal_color r1 = analyze_personal_color r2 ∧
    analyze_sensitivity s1 = analyze_sensitivity s2 ∧
    (api_comprehensive c1).personal = (api_comprehensive c2).personal ∧
    (api_comprehensive c1).sensitivity = (api_comprehensive c2).sensitivity ∧
    (api_comprehensive c1).recommendations = (api_comprehensive c2).recommendations ∧
    (api_comprehensive c1).user_id = c1.user_id := by
  obtain ⟨h1, h2, h3, h4⟩ := hr
  obtain ⟨h5, h6, h7, h8⟩ := hs
  obtain ⟨h9, h10⟩ := hc
  cases r1; cases r2; cases s1; cases s2; cases c1; cases c2
  dsimp only at h1 h2 h3 h4 h5 h6 h7 h8 h9 h10
  subst h1; subst h2; subst h3; subst h4; subst h5
  subst h6; subst h7; subst h8; subst h9; subst h10
  exact ⟨rfl, rfl, rfl, rfl, rfl, rfl⟩

/-- Personal-color request of user "alice" (vein blue). -/
def alicePersonalRequest : PersonalColorRequest :=
  { user_id := some "alice", vein_color := some VeinColor.blue }

/-- The same personal-color request, but from user "bob". -/
def bobPersonalRequest : PersonalColorRequest :=
  { user_id := some "bob", vein_color := some VeinColor.blue }

/-- Sensitivity request of user "alice" (fragrance-sensitive). -/
def aliceSensitivityRequest : SensitivityRequest :=
  { user_id := some "alice", fragrance_sensitive := true }

/-- The same sensitivity request, but from user "bob". -/
def bobSensitivityRequest : SensitivityRequest :=
  { user_id := some "bob", fragrance_sensitive := true }

/-- Comprehensive request of user "alice" with an empty sensitivity block. -/
def aliceComprehensiveRequest : ComprehensiveRequest :=
  { user_id := some "alice", sensitivity := some ({} : SensitivityRequest) }

/-- The same comprehensive request, but from user "bob". -/
def bobComprehensiveRequest : ComprehensiveRequest :=
  { user_id := some "bob", sensitivity := some ({} : SensitivityRequest) }

/-- Witness for C10 at concrete requests differing only in `user_id`. -/
theorem user_id_noninterference_witness :
    analyze_personal_color alicePersonalRequest = analyze_personal_color bobPersonalRequest ∧
    analyze_sensitivity aliceSensitivityRequest = analyze_sensitivity bobSensitivityRequest ∧
    (api_comprehensive aliceComprehensiveRequest).personal =
      (api_comprehensive bobComprehensiveRequest).personal ∧
    (api_comprehensive aliceComprehensiveRequest).sensitivity =
      (api_comprehensive bobComprehensiveRequest).sensitivity ∧
    (api_comprehensive aliceComprehensiveRequest).recommendations =
      (api_comprehensive bobComprehensiveRequest).recommendations ∧
    (api_comprehensive aliceComprehensiveRequest).user_id =
      aliceComprehensiveRequest.user_id :=
  user_id_noninterference alicePersonalRequest bobPersonalRequest
    aliceSensitivityRequest bobSensitivityRequest
    aliceComprehensiveRequest bobComprehensiveRequest
    ⟨rfl, rfl, rfl, rfl⟩ ⟨rfl, rfl, rfl, rfl⟩ ⟨rfl, rfl⟩

end Backend
